import Mathlib

/-!
Verification development for the `mcp-bitwarden` secret-retrieval gateway
(`src/mcp-bitwarden/src/main.rs`).

The Rust program is a warp HTTP server with two routes:
`GET /secret/{org_id}/{secret_key}` handled by `get_secret_handler`, and
`GET /health` handled by `health_check`.  The handler shells out to the
`bws` CLI twice (`bws secret list`, `bws secret get <id>`) and parses the
JSON each subprocess prints.  We embed the handler as a pure function over
a `World` that records the outcome of every external effect: the outcome
of each subprocess invocation (indexed by invocation number, so that the
number of invocations the code performs is observable) and the behaviour
of the `serde_json::from_str` parsers, which are external library calls.
-/

namespace McpBitwarden

/-- A JSON value, as far as the response bodies built by the program need:
the bodies are built with `serde_json::json!` from strings, arrays of
strings, and string-keyed objects. -/
inductive Json where
  | str (s : String)
  | arr (elems : List Json)
  | obj (fields : List (String × Json))

/-- Field names of a JSON object (empty for non-objects). -/
def Json.fieldNames : Json → List String
  | Json.obj fields => fields.map Prod.fst
  | _ => []

/-- Look a field up in a JSON object (none for non-objects). -/
def Json.getField : Json → String → Option Json
  | Json.obj fields, n => fields.lookup n
  | _, _ => none

/-- An HTTP response as produced by the handler: a status code and a JSON
body (`warp::reply::with_status(warp::reply::json(..), code)`); the plain
200 reply of the success path carries status 200. -/
structure HttpResponse where
  status : Nat
  body : Json

/-- Outcome of one `Command::new("bws")...output()` call:
`success stdout` models `Ok(output)` with `output.status.success()`,
`failure stderr` models `Ok(output)` with a non-zero exit status, and
`execError msg` models `Err(e)` (the subprocess could not be executed). -/
inductive CmdResult where
  | success (stdout : String)
  | failure (stderr : String)
  | execError (msg : String)

/-- `struct BwsSecretIdentifier` from main.rs: one element of the JSON
array printed by `bws secret list`. -/
structure BwsSecretIdentifier where
  id : String
  organization_id : String
  project_id : String
  key : String
  creation_date : String
  revision_date : String
deriving DecidableEq

/-- `struct BwsSecretResponse` from main.rs: the JSON object printed by
`bws secret get <id>`. -/
structure BwsSecretResponse where
  id : String
  organization_id : String
  project_id : String
  key : String
  value : String
  note : String
  creation_date : String
  revision_date : String
deriving DecidableEq

/-- `struct SecretResponse` from main.rs: the success body, which
serializes (derive Serialize, declaration order) to exactly the two
fields `key` and `value`. -/
structure SecretResponse where
  key : String
  value : String
deriving DecidableEq

/-- The environment of one request: outcomes of the external effects the
handler performs.  `listOutcomes n` is the outcome of the n-th invocation
of `bws secret list --output json`; `getOutcomes n id` the outcome of the
n-th invocation of `bws secret get id --output json`; `versionOutcome`
the outcome of `bws --version` (health route).  `parseListJson` and
`parseGetJson` model `serde_json::from_str` on the respective stdout;
the parsers are external library code, so they are part of the world. -/
structure World where
  listOutcomes : Nat → CmdResult
  getOutcomes : Nat → String → CmdResult
  versionOutcome : CmdResult
  parseListJson : String → Except String (List BwsSecretIdentifier)
  parseGetJson : String → Except String BwsSecretResponse

/-- Whether a character is an ASCII hex digit. -/
def isHexDigit (c : Char) : Bool :=
  c.isDigit || (97 ≤ c.toNat && c.toNat ≤ 102) || (65 ≤ c.toNat && c.toNat ≤ 70)

/-- Models `uuid::Uuid::parse_str` composed with `Uuid::to_string` for the
standard hyphenated textual form (36 characters, hyphens at positions
8, 13, 18 and 23, hex digits elsewhere, case-insensitive); `to_string`
renders lowercase hyphenated.  Other textual forms the uuid crate also
accepts (simple, braced, urn) are not modelled; the handler only branches
on whether parsing succeeded, and the claims quantify over that. -/
def uuidParse (s : String) : Option String :=
  let cs := s.toList
  let ok := cs.length == 36 &&
    (List.range 36).all (fun i =>
      let c := cs.getD i 'x'
      if i == 8 || i == 13 || i == 18 || i == 23 then c == '-' else isHexDigit c)
  if ok then some (String.mk (cs.map Char.toLower)) else none

/-- What one call of the handler did: the HTTP response it returned, how
many times it invoked `bws secret list`, how many times it invoked
`bws secret get`, and the secret id it passed to `bws secret get` (none
when that command was never run). -/
structure HandlerTrace where
  response : HttpResponse
  listCalls : Nat
  getCalls : Nat
  getIdUsed : Option String

/-- Embedding of `get_secret_handler` from main.rs, branch for branch:
parse the org id (fail: 400); run `bws secret list` once (exit failure or
exec error: 500 with the raw error in `details`); parse its stdout
(failure: 500 with the parse error in `details`); find the first listed
identifier whose `key` equals `secret_key` and whose `organizationId`
equals the parsed org id rendered by `to_string` (none: 404 with the keys
available in the organization); run `bws secret get <id>` once (failures
as for list); parse its stdout; answer 200 with `{key, value}` from the
parsed secret. -/
def get_secret_handler (w : World) (org_id_str : String) (secret_key : String) :
    HandlerTrace :=
  match uuidParse org_id_str with
  | none =>
      { response :=
          { status := 400,
            body := Json.obj [("error", Json.str "Invalid organization ID format")] },
        listCalls := 0, getCalls := 0, getIdUsed := none }
  | some org_id =>
    match w.listOutcomes 0 with
    | CmdResult.failure error_msg =>
        { response :=
            { status := 500,
              body := Json.obj [("error", Json.str "Failed to list secrets via bws CLI"),
                                ("details", Json.str error_msg)] },
          listCalls := 1, getCalls := 0, getIdUsed := none }
    | CmdResult.execError e =>
        { response :=
            { status := 500,
              body := Json.obj [("error", Json.str "bws CLI not available"),
                                ("details", Json.str e)] },
          listCalls := 1, getCalls := 0, getIdUsed := none }
    | CmdResult.success list_result =>
      match w.parseListJson list_result with
      | Except.error e =>
          { response :=
              { status := 500,
                body := Json.obj [("error", Json.str "Failed to parse bws output"),
                                  ("details", Json.str e)] },
            listCalls := 1, getCalls := 0, getIdUsed := none }
      | Except.ok secrets_list =>
        match secrets_list.find? (fun s => s.key == secret_key && s.organization_id == org_id) with
        | none =>
            { response :=
                { status := 404,
                  body := Json.obj
                    [("error",
                      Json.str ("Secret \x27" ++ secret_key ++ "\x27 not found in organization")),
                     ("available_secrets",
                      Json.arr ((secrets_list.filter
                        (fun s => s.organization_id == org_id)).map
                          (fun s => Json.str s.key)))] },
              listCalls := 1, getCalls := 0, getIdUsed := none }
        | some identifier =>
          match w.getOutcomes 0 identifier.id with
          | CmdResult.failure error_msg =>
              { response :=
                  { status := 500,
                    body := Json.obj [("error", Json.str "Failed to get secret via bws CLI"),
                                      ("details", Json.str error_msg)] },
                listCalls := 1, getCalls := 1, getIdUsed := some identifier.id }
          | CmdResult.execError e =>
              { response :=
                  { status := 500,
                    body := Json.obj [("error", Json.str "bws CLI execution failed"),
                                      ("details", Json.str e)] },
                listCalls := 1, getCalls := 1, getIdUsed := some identifier.id }
          | CmdResult.success secret_result =>
            match w.parseGetJson secret_result with
            | Except.error e =>
                { response :=
                    { status := 500,
                      body := Json.obj [("error", Json.str "Failed to parse secret details"),
                                        ("details", Json.str e)] },
                  listCalls := 1, getCalls := 1, getIdUsed := some identifier.id }
            | Except.ok secret =>
                { response :=
                    { status := 200,
                      body := Json.obj [("key", Json.str secret.key),
                                        ("value", Json.str secret.value)] },
                  listCalls := 1, getCalls := 1, getIdUsed := some identifier.id }

/-- Embedding of `health_check` from main.rs: 200 when `bws --version`
runs and exits successfully, 503 otherwise.  The plain-text bodies are
modelled as JSON strings. -/
def health_check (w : World) : HttpResponse :=
  match w.versionOutcome with
  | CmdResult.success _ => { status := 200, body := Json.str "OK - bws CLI available" }
  | CmdResult.failure _ => { status := 503, body := Json.str "ERROR - bws CLI not available" }
  | CmdResult.execError _ => { status := 503, body := Json.str "ERROR - bws CLI not available" }

/-- An inbound HTTP GET request as the warp routing in `main` sees it:
the path segments and the raw `Authorization` header value (none when the
header is absent).  The routes built in `main` never extract or inspect
the header; it is carried here so that independence from it is statable. -/
structure Request where
  path : List String
  authorization : Option String

/-- Result of routing: either some route matched and produced a response,
or no route matched (a warp rejection). -/
inductive RouteResult where
  | handled (resp : HttpResponse)
  | rejected

/-- Embedding of the routing composed in `main`:
`warp::path!("secret" / String / String).and(warp::get())` dispatches to
`get_secret_handler`, `warp::path("health").and(warp::get())` to
`health_check`, anything else is rejected. -/
def handle_request (w : World) (req : Request) : RouteResult :=
  match req.path with
  | ["secret", org_id_str, secret_key] =>
      RouteResult.handled (get_secret_handler w org_id_str secret_key).response
  | ["health"] => RouteResult.handled (health_check w)
  | _ => RouteResult.rejected

/-- What startup did: either the process terminated with a panic message
before binding the listener, or it reached `warp::serve(..).run(..)` and
is listening. -/
inductive StartupOutcome where
  | terminated (msg : String)
  | listening (addr : String) (port : Nat)

/-- Embedding of `main` up to the suspension point of
`warp::serve(routes).run(([127, 0, 0, 1], 8080))`: the very first
statement reads `BWS_ACCESS_TOKEN` from the process environment and
`.expect(..)` panics when it is absent; only then are the routes built
and the listener bound on 127.0.0.1:8080. -/
def main_startup (env : String → Option String) : StartupOutcome :=
  match env "BWS_ACCESS_TOKEN" with
  | none => StartupOutcome.terminated "BWS_ACCESS_TOKEN must be set in environment"
  | some _ => StartupOutcome.listening "127.0.0.1" 8080

/-! Concrete worlds used to instantiate hypotheses and exhibit behaviour. -/

/-- The canonical hyphenated rendering of the nil org uuid. -/
def orgA : String := "00000000-0000-0000-0000-000000000000"

/-- A second well-formed org uuid. -/
def orgB : String := "11111111-1111-1111-1111-111111111111"

/-- A listed identifier in `orgA` with key `DB_PASS`. -/
def sampleIdent : BwsSecretIdentifier :=
  { id := "abc", organization_id := orgA, project_id := "p1",
    key := "DB_PASS", creation_date := "2024-01-01", revision_date := "2024-01-02" }

/-- The full secret behind `sampleIdent`. -/
def sampleSecret : BwsSecretResponse :=
  { id := "abc", organization_id := orgA, project_id := "p1",
    key := "DB_PASS", value := "hunter2", note := "internal n",
    creation_date := "2024-01-01", revision_date := "2024-01-02" }

/-- A world where every subprocess call succeeds, the list parses to the
single `sampleIdent`, and the get parses to `sampleSecret`. -/
def sampleWorld : World :=
  { listOutcomes := fun _ => CmdResult.success "LISTJSON",
    getOutcomes := fun _ _ => CmdResult.success "GETJSON",
    versionOutcome := CmdResult.success "bws 1.0",
    parseListJson := fun _ => Except.ok [sampleIdent],
    parseGetJson := fun _ => Except.ok sampleSecret }

/-- A world whose list subprocess fails on its first invocation and would
succeed on every later one: the shape of world under which the claimed
retry policy would have to succeed on the second attempt. -/
def flakyWorld : World :=
  { listOutcomes := fun n =>
      if n == 0 then CmdResult.failure "transient network error" else CmdResult.success "LISTJSON",
    getOutcomes := fun _ _ => CmdResult.success "GETJSON",
    versionOutcome := CmdResult.success "bws 1.0",
    parseListJson := fun _ => Except.ok [sampleIdent],
    parseGetJson := fun _ => Except.ok sampleSecret }

/-- A world whose list subprocess fails with a distinctive raw stderr
text, to observe whether that text reaches the response body. -/
def leakWorld : World :=
  { listOutcomes := fun _ => CmdResult.failure "RAW-VAULT-STDERR: api key rejected by server",
    getOutcomes := fun _ _ => CmdResult.success "GETJSON",
    versionOutcome := CmdResult.success "bws 1.0",
    parseListJson := fun _ => Except.ok [sampleIdent],
    parseGetJson := fun _ => Except.ok sampleSecret }

/-- A second identifier that also has key `DB_PASS` in `orgA`. -/
def sampleIdentDup : BwsSecretIdentifier :=
  { id := "xyz", organization_id := orgA, project_id := "p2",
    key := "DB_PASS", creation_date := "2024-02-01", revision_date := "2024-02-02" }

/-- An identifier in a different organization with a different key. -/
def otherIdent : BwsSecretIdentifier :=
  { id := "zzz", organization_id := orgB, project_id := "p3",
    key := "OTHER", creation_date := "2024-03-01", revision_date := "2024-03-02" }

/-- A world whose list contains two identifiers with the same key in the
same organization, preceded by a non-matching one. -/
def dupWorld : World :=
  { listOutcomes := fun _ => CmdResult.success "LISTJSON",
    getOutcomes := fun _ _ => CmdResult.success "GETJSON",
    versionOutcome := CmdResult.success "bws 1.0",
    parseListJson := fun _ => Except.ok [otherIdent, sampleIdent, sampleIdentDup],
    parseGetJson := fun _ => Except.ok sampleSecret }

/-! Helper lemmas shared by several claims. -/

/-- Case analysis over every branch of the handler: the response status is
always one of 200, 400, 404 and 500. -/
theorem get_secret_handler_status_cases (w : World) (o k : String) :
    (get_secret_handler w o k).response.status = 200 ∨
    (get_secret_handler w o k).response.status = 400 ∨
    (get_secret_handler w o k).response.status = 404 ∨
    (get_secret_handler w o k).response.status = 500 := by
  unfold get_secret_handler
  rcases uuidParse o with _ | org
  · simp
  · rcases w.listOutcomes 0 with s | e | m
    · rcases hp : w.parseListJson s with e | l
      · simp [hp]
      · simp only [hp]
        rcases hf : l.find? (fun x => x.key == k && x.organization_id == org) with _ | ident
        · simp [hf]
        · simp only [hf]
          rcases w.getOutcomes 0 ident.id with gs | ge | gm
          · rcases hq : w.parseGetJson gs with e | sec <;> simp [hq]
          · simp
          · simp
    · simp
    · simp

/-! Theorems settling the claims. -/

/-- C6: when the organization-id path parameter does not parse as a
well-formed uuid, the handler answers 400 with the fixed error body and
invokes no `bws` subprocess at all. -/
theorem C6_malformed_org_id (w : World) (o k : String) (ho : uuidParse o = none) :
    (get_secret_handler w o k).response.status = 400 ∧
    (get_secret_handler w o k).response.body =
      Json.obj [("error", Json.str "Invalid organization ID format")] ∧
    (get_secret_handler w o k).listCalls = 0 ∧
    (get_secret_handler w o k).getCalls = 0 := by
  unfold get_secret_handler
  rw [ho]
  exact ⟨rfl, rfl, rfl, rfl⟩

/-- Witness for C6 at the concrete non-uuid path parameter
`"not-a-uuid"` against `sampleWorld`. -/
theorem C6_malformed_org_id_witness :
    (get_secret_handler sampleWorld "not-a-uuid" "DB_PASS").response.status = 400 ∧
    (get_secret_handler sampleWorld "not-a-uuid" "DB_PASS").response.body =
      Json.obj [("error", Json.str "Invalid organization ID format")] ∧
    (get_secret_handler sampleWorld "not-a-uuid" "DB_PASS").listCalls = 0 ∧
    (get_secret_handler sampleWorld "not-a-uuid" "DB_PASS").getCalls = 0 :=
  C6_malformed_org_id sampleWorld "not-a-uuid" "DB_PASS" rfl

/-- C8: `main` reads `BWS_ACCESS_TOKEN` as its first statement and panics
when it is absent, so the process terminates before the listener is ever
bound; when the variable is present, startup proceeds to listen on
127.0.0.1:8080. -/
theorem C8_startup_token_gate (env : String → Option String) :
    (env "BWS_ACCESS_TOKEN" = none →
      main_startup env =
        StartupOutcome.terminated "BWS_ACCESS_TOKEN must be set in environment") ∧
    (∀ t, env "BWS_ACCESS_TOKEN" = some t →
      main_startup env = StartupOutcome.listening "127.0.0.1" 8080) := by
  constructor
  · intro h
    unfold main_startup
    rw [h]
  · intro t h
    unfold main_startup
    rw [h]

/-- Witness for C8 at two concrete environments: one without the token
and one with it. -/
theorem C8_startup_token_gate_witness :
    main_startup (fun _ => (none : Option String)) =
      StartupOutcome.terminated "BWS_ACCESS_TOKEN must be set in environment" ∧
    main_startup (fun _ => some "tok") = StartupOutcome.listening "127.0.0.1" 8080 :=
  ⟨(C8_startup_token_gate (fun _ => (none : Option String))).1 rfl,
   (C8_startup_token_gate (fun _ => some "tok")).2 "tok" rfl⟩

/-- C10: the handler is total — its error type in the source is
`Infallible` and every path returns `Ok` — and for every pair of path
strings and every outcome of the subprocess calls and parses, the
response status is one of 200, 400, 404 and 500. -/
theorem C10_handler_total_status (w : World) (o k : String) :
    (get_secret_handler w o k).response.status = 200 ∨
    (get_secret_handler w o k).response.status = 400 ∨
    (get_secret_handler w o k).response.status = 404 ∨
    (get_secret_handler w o k).response.status = 500 :=
  get_secret_handler_status_cases w o k

/-- C1 counterexample: a request for the secret route carrying no
`Authorization` header at all is not answered 401 with body
"Unauthorized" — it is served: the routing passes it straight to the
handler, which resolves the secret and answers 200 with the secret
value. -/
theorem C1_counterexample :
    handle_request sampleWorld
        { path := ["secret", orgA, "DB_PASS"], authorization := none } =
      RouteResult.handled
        { status := 200,
          body := Json.obj [("key", Json.str "DB_PASS"),
                            ("value", Json.str "hunter2")] } := by
  rfl

/-- C1 amended: the gateway performs no authentication at all — the
routes built in `main` never extract the `Authorization` header, so the
outcome of any request is independent of that header, and a handled
response never has status 401. -/
theorem C1_no_authentication (w : World) (p : List String) (a a' : Option String) :
    handle_request w { path := p, authorization := a } =
      handle_request w { path := p, authorization := a' } ∧
    ∀ r, handle_request w { path := p, authorization := a } = RouteResult.handled r →
      r.status ≠ 401 := by
  constructor
  · rfl
  · intro r hr
    unfold handle_request at hr
    split at hr
    · rename_i o k heq
      cases hr
      rcases get_secret_handler_status_cases w o k with h | h | h | h <;> omega
    · cases hr
      unfold health_check
      rcases w.versionOutcome with s | e | m <;> simp
    · cases hr

/-- Witness for C1 amended at a concrete request: the health route with
and without a credential gives the same non-401 response. -/
theorem C1_no_authentication_witness :
    (handle_request sampleWorld { path := ["health"], authorization := some "Bearer x" } =
      handle_request sampleWorld { path := ["health"], authorization := none }) ∧
    ∀ r, handle_request sampleWorld { path := ["health"], authorization := some "Bearer x" } =
        RouteResult.handled r → r.status ≠ 401 :=
  C1_no_authentication sampleWorld ["health"] (some "Bearer x") none

/-- C2 counterexample: under `flakyWorld` the list operation fails once
and would succeed on every subsequent invocation (k = 1 < 3), so a
3-attempt retry policy would return the success after exactly 2
invocations; the handler instead invokes the operation exactly once and
returns the 500 carrying the first error. -/
theorem C2_counterexample :
    (get_secret_handler flakyWorld orgA "DB_PASS").listCalls = 1 ∧
    flakyWorld.listOutcomes 1 = CmdResult.success "LISTJSON" ∧
    (get_secret_handler flakyWorld orgA "DB_PASS").response.status = 500 := by
  exact ⟨rfl, rfl, rfl⟩

/-- C2 amended: the list-identifiers and get-by-id vault operations are
not wrapped by any retry policy — each is invoked at most once per
request, and when the single list invocation fails the handler returns
that failure as a 500 immediately, after exactly one invocation. -/
theorem C2_no_retry (w : World) (o k : String) :
    (get_secret_handler w o k).listCalls ≤ 1 ∧
    (get_secret_handler w o k).getCalls ≤ 1 ∧
    (∀ org e, uuidParse o = some org → w.listOutcomes 0 = CmdResult.failure e →
      (get_secret_handler w o k).listCalls = 1 ∧
      (get_secret_handler w o k).getCalls = 0 ∧
      (get_secret_handler w o k).response.status = 500) := by
  refine ⟨?_, ?_, ?_⟩
  · unfold get_secret_handler
    rcases uuidParse o with _ | org
    · simp
    · rcases w.listOutcomes 0 with s | e | m
      · rcases hp : w.parseListJson s with e | l
        · simp [hp]
        · simp only [hp]
          rcases hf : l.find? (fun x => x.key == k && x.organization_id == org) with _ | ident
          · simp [hf]
          · simp only [hf]
            rcases w.getOutcomes 0 ident.id with gs | ge | gm
            · rcases hq : w.parseGetJson gs with e | sec <;> simp [hq]
            · simp
            · simp
      · simp
      · simp
  · unfold get_secret_handler
    rcases uuidParse o with _ | org
    · simp
    · rcases w.listOutcomes 0 with s | e | m
      · rcases hp : w.parseListJson s with e | l
        · simp [hp]
        · simp only [hp]
          rcases hf : l.find? (fun x => x.key == k && x.organization_id == org) with _ | ident
          · simp [hf]
          · simp only [hf]
            rcases w.getOutcomes 0 ident.id with gs | ge | gm
            · rcases hq : w.parseGetJson gs with e | sec <;> simp [hq]
            · simp
            · simp
      · simp
      · simp
  · intro org e ho he
    unfold get_secret_handler
    rw [ho, he]
    exact ⟨rfl, rfl, rfl⟩

/-- Witness for C2 amended at `flakyWorld`: a concrete run with a failing
first list invocation. -/
theorem C2_no_retry_witness :
    (get_secret_handler flakyWorld orgA "DB_PASS").listCalls ≤ 1 ∧
    (get_secret_handler flakyWorld orgA "DB_PASS").getCalls ≤ 1 ∧
    ((get_secret_handler flakyWorld orgA "DB_PASS").listCalls = 1 ∧
     (get_secret_handler flakyWorld orgA "DB_PASS").getCalls = 0 ∧
     (get_secret_handler flakyWorld orgA "DB_PASS").response.status = 500) :=
  ⟨(C2_no_retry flakyWorld orgA "DB_PASS").1,
   (C2_no_retry flakyWorld orgA "DB_PASS").2.1,
   (C2_no_retry flakyWorld orgA "DB_PASS").2.2 orgA "transient network error" rfl rfl⟩

/-- `find?` returns none when no element satisfies the predicate. -/
theorem find?_eq_none_of_forall {α : Type} (p : α → Bool) (l : List α)
    (h : ∀ x ∈ l, p x = false) : l.find? p = none := by
  induction l with
  | nil => rfl
  | cons b t ih =>
      rw [List.find?_cons_of_neg _ (by simp [h b (List.mem_cons_self b t)])]
      exact ih fun x hx => h x (List.mem_cons_of_mem _ hx)

/-- `find?` returns the unique element satisfying the predicate. -/
theorem find?_eq_some_of_unique {α : Type} (p : α → Bool) (l : List α) (a : α)
    (ha : a ∈ l) (hpa : p a = true) (huniq : ∀ x ∈ l, p x = true → x = a) :
    l.find? p = some a := by
  induction l with
  | nil => cases ha
  | cons b t ih =>
      by_cases hb : p b = true
      · have hba : b = a := huniq b (List.mem_cons_self b t) hb
        subst hba
        exact List.find?_cons_of_pos _ hb
      · rw [List.find?_cons_of_neg _ (by simpa using hb)]
        have ha' : a ∈ t := by
          rcases List.mem_cons.mp ha with h | h
          · subst h; exact absurd hpa hb
          · exact h
        exact ih ha' fun x hx hpx => huniq x (List.mem_cons_of_mem _ hx) hpx

/-- `find?` returns the head when it satisfies the predicate (explicit
predicate, for rewriting with beta-reduced hypotheses). -/
theorem find?_cons_of_match {α : Type} (p : α → Bool) (a : α) (t : List α)
    (h : p a = true) : (a :: t).find? p = some a := by
  rw [List.find?_cons, h]

/-- `find?` skips a prefix with no match. -/
theorem find?_append_of_forall_none {α : Type} (p : α → Bool) (pre rest : List α)
    (h : ∀ x ∈ pre, p x = false) : (pre ++ rest).find? p = rest.find? p := by
  induction pre with
  | nil => rfl
  | cons b t ih =>
      rw [List.cons_append,
        List.find?_cons_of_neg _ (by simp [h b (List.mem_cons_self b t)])]
      exact ih fun x hx => h x (List.mem_cons_of_mem _ hx)

/-- C3: when no listed identifier has the requested key together with the
requested organization, the handler answers 404, the body enumerates
exactly the keys of the identifiers in the requested organization, and
every enumerated key belongs to an identifier in that organization. -/
theorem C3_secret_not_found (w : World) (o k org stdout : String)
    (l : List BwsSecretIdentifier)
    (ho : uuidParse o = some org)
    (hl : w.listOutcomes 0 = CmdResult.success stdout)
    (hp : w.parseListJson stdout = Except.ok l)
    (hnone : ∀ s ∈ l, (s.key == k && s.organization_id == org) = false) :
    (get_secret_handler w o k).response.status = 404 ∧
    (get_secret_handler w o k).response.body =
      Json.obj
        [("error", Json.str ("Secret \x27" ++ k ++ "\x27 not found in organization")),
         ("available_secrets",
          Json.arr ((l.filter (fun s => s.organization_id == org)).map
            (fun s => Json.str s.key)))] ∧
    (∀ j ∈ (l.filter (fun s => s.organization_id == org)).map (fun s => Json.str s.key),
      ∃ s, s ∈ l ∧ s.organization_id = org ∧ j = Json.str s.key) := by
  have hfind : l.find? (fun s => s.key == k && s.organization_id == org) = none :=
    find?_eq_none_of_forall _ _ hnone
  simp only [get_secret_handler, ho, hl, hp, hfind]
  refine ⟨by simp, by simp, ?_⟩
  intro j hj
  rcases List.mem_map.mp hj with ⟨s, hs, rfl⟩
  rcases List.mem_filter.mp hs with ⟨hsl, hsorg⟩
  exact ⟨s, hsl, by simpa using hsorg, rfl⟩

/-- Witness for C3: requesting the absent key `MISSING` in `orgA`
against `sampleWorld`. -/
theorem C3_secret_not_found_witness :
    (get_secret_handler sampleWorld orgA "MISSING").response.status = 404 ∧
    (get_secret_handler sampleWorld orgA "MISSING").response.body =
      Json.obj
        [("error", Json.str ("Secret \x27" ++ "MISSING" ++ "\x27 not found in organization")),
         ("available_secrets",
          Json.arr (([sampleIdent].filter (fun s => s.organization_id == orgA)).map
            (fun s => Json.str s.key)))] ∧
    (∀ j ∈ ([sampleIdent].filter (fun s => s.organization_id == orgA)).map
        (fun s => Json.str s.key),
      ∃ s, s ∈ [sampleIdent] ∧ s.organization_id = orgA ∧ j = Json.str s.key) :=
  C3_secret_not_found sampleWorld orgA "MISSING" orgA "LISTJSON" [sampleIdent]
    rfl rfl rfl (by decide)

/-- C4: when exactly one listed identifier matches the requested key and
organization, the handler fetches by that identifier's id and answers 200
with exactly the key and value of the secret the get call returned; the
handler is a function of its world, so the round trip is stable for a
fixed vault snapshot. -/
theorem C4_round_trip (w : World) (o k org stdout gout : String)
    (l : List BwsSecretIdentifier) (ident : BwsSecretIdentifier)
    (secret : BwsSecretResponse)
    (ho : uuidParse o = some org)
    (hl : w.listOutcomes 0 = CmdResult.success stdout)
    (hp : w.parseListJson stdout = Except.ok l)
    (hmem : ident ∈ l)
    (hmatch : (ident.key == k && ident.organization_id == org) = true)
    (huniq : ∀ x ∈ l, (x.key == k && x.organization_id == org) = true → x = ident)
    (hg : w.getOutcomes 0 ident.id = CmdResult.success gout)
    (hq : w.parseGetJson gout = Except.ok secret) :
    (get_secret_handler w o k).response.status = 200 ∧
    (get_secret_handler w o k).response.body =
      Json.obj [("key", Json.str secret.key), ("value", Json.str secret.value)] ∧
    (get_secret_handler w o k).getIdUsed = some ident.id := by
  have hfind : l.find? (fun s => s.key == k && s.organization_id == org) = some ident :=
    find?_eq_some_of_unique _ _ _ hmem hmatch huniq
  simp only [get_secret_handler, ho, hl, hp, hfind, hg, hq]
  exact ⟨by simp, by simp, by simp⟩

/-- Witness for C4: resolving `DB_PASS` in `orgA` against `sampleWorld`
yields the value fetched by id `abc`. -/
theorem C4_round_trip_witness :
    (get_secret_handler sampleWorld orgA "DB_PASS").response.status = 200 ∧
    (get_secret_handler sampleWorld orgA "DB_PASS").response.body =
      Json.obj [("key", Json.str sampleSecret.key), ("value", Json.str sampleSecret.value)] ∧
    (get_secret_handler sampleWorld orgA "DB_PASS").getIdUsed = some sampleIdent.id :=
  C4_round_trip sampleWorld orgA "DB_PASS" orgA "LISTJSON" "GETJSON" [sampleIdent]
    sampleIdent sampleSecret rfl rfl rfl (by decide) (by decide) (by decide) rfl rfl

/-- C5: when several listed identifiers carry the requested key in the
requested organization, the handler selects the first match in the order
the list call returned: the id it passes to `bws secret get` is the id of
the first matching identifier. -/
theorem C5_first_match (w : World) (o k org stdout : String)
    (pre post : List BwsSecretIdentifier) (ident ident2 : BwsSecretIdentifier)
    (ho : uuidParse o = some org)
    (hl : w.listOutcomes 0 = CmdResult.success stdout)
    (hp : w.parseListJson stdout = Except.ok (pre ++ ident :: post))
    (hpre : ∀ x ∈ pre, (x.key == k && x.organization_id == org) = false)
    (hmatch : (ident.key == k && ident.organization_id == org) = true)
    (hmem2 : ident2 ∈ post)
    (hmatch2 : (ident2.key == k && ident2.organization_id == org) = true) :
    (get_secret_handler w o k).getIdUsed = some ident.id := by
  have hfind : (pre ++ ident :: post).find?
      (fun s => s.key == k && s.organization_id == org) = some ident := by
    rw [find?_append_of_forall_none _ _ _ hpre,
      find?_cons_of_match (fun s => s.key == k && s.organization_id == org) ident post hmatch]
  simp only [get_secret_handler, ho, hl, hp, hfind]
  rcases w.getOutcomes 0 ident.id with gs | ge | gm
  · rcases hq : w.parseGetJson gs with e | sec <;> simp [hq]
  · simp
  · simp

/-- Witness for C5: two identifiers with key `DB_PASS` in `orgA`, behind
one non-matching identifier; the first match `sampleIdent` is selected. -/
theorem C5_first_match_witness :
    (get_secret_handler dupWorld orgA "DB_PASS").getIdUsed = some sampleIdent.id :=
  C5_first_match dupWorld orgA "DB_PASS" orgA "LISTJSON" [otherIdent] [sampleIdentDup]
    sampleIdent sampleIdentDup rfl rfl rfl (by decide) (by decide) (by decide) (by decide)

/-- Full shape analysis of the handler response: 400 with the fixed org
body, 404 with an error message and an available-secrets array, 500 with
one of the six fixed generic messages plus a `details` field, or 200 with
the key and value of a secret some get output parsed to. -/
theorem get_secret_handler_response_cases (w : World) (o k : String) :
    ((get_secret_handler w o k).response.status = 400 ∧
     (get_secret_handler w o k).response.body =
       Json.obj [("error", Json.str "Invalid organization ID format")]) ∨
    ((get_secret_handler w o k).response.status = 404 ∧
     ∃ msg elems, (get_secret_handler w o k).response.body =
       Json.obj [("error", Json.str msg), ("available_secrets", Json.arr elems)]) ∨
    ((get_secret_handler w o k).response.status = 500 ∧
     ∃ g d, (get_secret_handler w o k).response.body =
         Json.obj [("error", Json.str g), ("details", Json.str d)] ∧
       (g = "Failed to list secrets via bws CLI" ∨ g = "bws CLI not available" ∨
        g = "Failed to parse bws output" ∨ g = "Failed to get secret via bws CLI" ∨
        g = "bws CLI execution failed" ∨ g = "Failed to parse secret details")) ∨
    ((get_secret_handler w o k).response.status = 200 ∧
     ∃ gout secret, w.parseGetJson gout = Except.ok secret ∧
       (get_secret_handler w o k).response.body =
         Json.obj [("key", Json.str secret.key), ("value", Json.str secret.value)]) := by
  unfold get_secret_handler
  rcases uuidParse o with _ | org
  · exact Or.inl ⟨by trivial, by trivial⟩
  · rcases w.listOutcomes 0 with s | e | m
    · rcases hp : w.parseListJson s with e | l
      · simp only [hp]
        exact Or.inr (Or.inr (Or.inl ⟨by trivial, "Failed to parse bws output", e, by trivial,
          Or.inr (Or.inr (Or.inl rfl))⟩))
      · simp only [hp]
        rcases hf : l.find? (fun x => x.key == k && x.organization_id == org) with _ | ident
        · simp only [hf]
          exact Or.inr (Or.inl ⟨by trivial,
            "Secret \x27" ++ k ++ "\x27 not found in organization",
            (l.filter (fun s => s.organization_id == org)).map (fun s => Json.str s.key),
            rfl⟩)
        · simp only [hf]
          rcases w.getOutcomes 0 ident.id with gs | ge | gm
          · rcases hq : w.parseGetJson gs with e | sec
            · simp only [hq]
              exact Or.inr (Or.inr (Or.inl ⟨by trivial, "Failed to parse secret details", e, by trivial,
                Or.inr (Or.inr (Or.inr (Or.inr (Or.inr rfl))))⟩))
            · simp only [hq]
              exact Or.inr (Or.inr (Or.inr ⟨by trivial, gs, sec, hq, by trivial⟩))
          · exact Or.inr (Or.inr (Or.inl ⟨by trivial, "Failed to get secret via bws CLI", ge, by trivial,
              Or.inr (Or.inr (Or.inr (Or.inl rfl)))⟩))
          · exact Or.inr (Or.inr (Or.inl ⟨by trivial, "bws CLI execution failed", gm, by trivial,
              Or.inr (Or.inr (Or.inr (Or.inr (Or.inl rfl))))⟩))
    · exact Or.inr (Or.inr (Or.inl ⟨by trivial, "Failed to list secrets via bws CLI", e, by trivial,
        Or.inl rfl⟩))
    · exact Or.inr (Or.inr (Or.inl ⟨by trivial, "bws CLI not available", m, by trivial,
        Or.inr (Or.inl rfl)⟩))

/-- C7 counterexample: under `leakWorld` the list subprocess fails with a
distinctive raw stderr text, and that raw text appears verbatim in the
`details` field of the 500 response body sent to the caller. -/
theorem C7_counterexample :
    (get_secret_handler leakWorld orgA "DB_PASS").response.status = 500 ∧
    Json.getField (get_secret_handler leakWorld orgA "DB_PASS").response.body "details" =
      some (Json.str "RAW-VAULT-STDERR: api key rejected by server") := by
  exact ⟨rfl, rfl⟩

/-- C7 amended: every vault-originating failure is answered 500 with a
body holding exactly an `error` field carrying one of six fixed generic
messages and a `details` field — and the `details` field carries the raw
CLI stderr or parse-error text, so raw internal error detail is echoed to
the caller, beyond the structured available-key enumeration of the 404
path. -/
theorem C7_error_body_has_details (w : World) (o k : String)
    (h : (get_secret_handler w o k).response.status = 500) :
    ∃ g d, (get_secret_handler w o k).response.body =
        Json.obj [("error", Json.str g), ("details", Json.str d)] ∧
      (g = "Failed to list secrets via bws CLI" ∨ g = "bws CLI not available" ∨
       g = "Failed to parse bws output" ∨ g = "Failed to get secret via bws CLI" ∨
       g = "bws CLI execution failed" ∨ g = "Failed to parse secret details") := by
  rcases get_secret_handler_response_cases w o k with ⟨hs, _⟩ | ⟨hs, _⟩ | ⟨hs, hb⟩ | ⟨hs, _⟩
  · omega
  · omega
  · exact hb
  · omega

/-- Witness for C7 amended at `leakWorld`. -/
theorem C7_error_body_has_details_witness :
    ∃ g d, (get_secret_handler leakWorld orgA "DB_PASS").response.body =
        Json.obj [("error", Json.str g), ("details", Json.str d)] ∧
      (g = "Failed to list secrets via bws CLI" ∨ g = "bws CLI not available" ∨
       g = "Failed to parse bws output" ∨ g = "Failed to get secret via bws CLI" ∨
       g = "bws CLI execution failed" ∨ g = "Failed to parse secret details") :=
  C7_error_body_has_details leakWorld orgA "DB_PASS" rfl

/-- C9: every 200 response carries a body that is a JSON object with
exactly the two fields `key` and `value`, taken from the secret the get
output parsed to; no other field (note, id, organization or project id,
dates) and no token is present, since the field-name list is exactly
`key, value`. -/
theorem C9_success_body_fields (w : World) (o k : String)
    (h : (get_secret_handler w o k).response.status = 200) :
    ∃ gout secret, w.parseGetJson gout = Except.ok secret ∧
      (get_secret_handler w o k).response.body =
        Json.obj [("key", Json.str secret.key), ("value", Json.str secret.value)] ∧
      Json.fieldNames (get_secret_handler w o k).response.body = ["key", "value"] := by
  rcases get_secret_handler_response_cases w o k with ⟨hs, _⟩ | ⟨hs, _⟩ | ⟨hs, _⟩ | ⟨hs, hb⟩
  · omega
  · omega
  · omega
  · rcases hb with ⟨gout, secret, hq, hbody⟩
    exact ⟨gout, secret, hq, hbody, by rw [hbody]; rfl⟩

/-- Witness for C9 at `sampleWorld`: the successful resolution of
`DB_PASS`. -/
theorem C9_success_body_fields_witness :
    ∃ gout secret, sampleWorld.parseGetJson gout = Except.ok secret ∧
      (get_secret_handler sampleWorld orgA "DB_PASS").response.body =
        Json.obj [("key", Json.str secret.key), ("value", Json.str secret.value)] ∧
      Json.fieldNames (get_secret_handler sampleWorld orgA "DB_PASS").response.body =
        ["key", "value"] :=
  C9_success_body_fields sampleWorld orgA "DB_PASS" rfl

end McpBitwarden
